import Mathlib

/-!
Verification of the subscription / access-control / payment-approval core of
the TechReportPro backend.  The definitions below are a shallow embedding of
the JavaScript source: mongoose user-document methods
(`hasActiveSubscription`, `getAvailableReports`, `useReport` in
src/models/PaymentRequest.js), the route handlers that mutate user state
(`POST /payment-requests/:id/verify` in src/routes/paymentRoutes.js,
`PATCH /payment-requests/:id/approve` in src/routes/adminRoutes.js,
`POST /:id/use-subscription` and `GET /:id/pdf` in src/routes/reportRoutes.js,
`GET /check-access/:reportId` in src/routes/userRoutes.js) and the daily
subscription-expiry cron sweep.  Stateful handlers are modelled as pure
functions returning the updated documents; persistence and e-mail side
effects are modelled as noted at each definition.
-/

namespace TRP

/-- Calendar date at day granularity (month is 1-based).  The source compares
mongoose Date values only with `<` / `>`; day granularity is enough for every
comparison the modelled code performs. -/
structure DT where
  y : Int
  m : Nat
  d : Nat
deriving DecidableEq, Repr

/-- Order key for dates: strictly monotone in (y, m, d) for calendar-valid
months and days, so `a.key < b.key` models the JS Date comparison `a < b`. -/
def DT.key (t : DT) : Int := t.y * 10000 + (t.m : Int) * 100 + (t.d : Int)

/-- Gregorian leap-year test, as JS Date normalization implements it. -/
def isLeap (y : Int) : Bool := y % 4 == 0 && (y % 100 != 0 || y % 400 == 0)

/-- Days in a (1-based) month of a given year. -/
def daysInMonth (y : Int) (m : Nat) : Nat :=
  if m == 2 then (if isLeap y then 29 else 28)
  else if m == 4 || m == 6 || m == 9 || m == 11 then 30
  else 31

/-- A calendar-valid date. -/
def validDT (t : DT) : Prop :=
  1 ≤ t.m ∧ t.m ≤ 12 ∧ 1 ≤ t.d ∧ t.d ≤ daysInMonth t.y t.m

instance (t : DT) : Decidable (validDT t) := by
  unfold validDT; infer_instance

/-- Year of the month reached n months after date t (before day
normalization); JS getMonth is 0-based, hence the m - 1. -/
def yAfter (t : DT) (n : Nat) : Int := t.y + (((t.m - 1) + n) / 12 : Nat)

/-- Month (1-based) reached n months after date t, before day normalization. -/
def mAfter (t : DT) (n : Nat) : Nat := ((t.m - 1) + n) % 12 + 1

/-- The expiry computation of the verify route:
`expiryDate.setMonth(now.getMonth() + planData.duration)`.  JS setMonth keeps
the day-of-month and lets an out-of-range day roll over into the following
month during Date normalization (it does not clamp).  For a valid input date
the excess day count is at most 3, so a single rollover step suffices. -/
def jsAddMonths (t : DT) (n : Nat) : DT :=
  let y1 := yAfter t n
  let m1 := mAfter t n
  let dim := daysInMonth y1 m1
  if t.d ≤ dim then ⟨y1, m1, t.d⟩
  else if m1 == 12 then ⟨y1 + 1, 1, t.d - dim⟩
  else ⟨y1, m1 + 1, t.d - dim⟩

/-- The calendar rule stated by the spec, for comparison with `jsAddMonths`:
the same calendar day n months later, clamped to the last day of the target
month when that day does not exist there.  This definition follows the
wording of the spec, not the source. -/
def specClampAddMonths (t : DT) (n : Nat) : DT :=
  let y1 := yAfter t n
  let m1 := mAfter t n
  ⟨y1, m1, min t.d (daysInMonth y1 m1)⟩

/-- Access type recorded on a purchasedReports entry (schema enum). -/
inductive AccessType where
  | individual
  | subscription
deriving DecidableEq, Repr

/-- One entry of `user.purchasedReports` (src/models/PaymentRequest.js,
purchasedReports subdocument). -/
structure PurchasedReport where
  reportId : String
  purchaseDate : DT
  price : Int
  accessType : AccessType
deriving DecidableEq, Repr

/-- The embedded subscription subdocument (subscriptionSchema in
src/models/PaymentRequest.js).  Counters are modelled as Nat: the schema
defaults them to 0 and the source only increments them, and
`Math.max(0, a - b)` on such values coincides with truncated Nat
subtraction. -/
structure Subscription where
  planId : String
  planName : String
  price : Int
  duration : Nat
  purchaseDate : DT
  expiryDate : DT
  isActive : Bool
  reportsIncluded : Nat
  reportsUsed : Nat
  premiumReports : Nat
  bluechipReports : Nat
  premiumReportsUsed : Nat
  bluechipReportsUsed : Nat
deriving DecidableEq, Repr

/-- The user document fields the modelled operations touch. -/
structure User where
  currentSubscription : Option Subscription
  subscriptionHistory : List Subscription
  purchasedReports : List PurchasedReport
  points : Int
deriving DecidableEq, Repr

/-- userSchema.methods.hasActiveSubscription: true iff a currentSubscription
exists, its isActive flag is set, and its expiryDate is strictly later than
now.  A pure predicate: it reads the document and mutates nothing. -/
def hasActiveSubscription (u : User) (now : DT) : Bool :=
  match u.currentSubscription with
  | none => false
  | some s => s.isActive && now.key < s.expiryDate.key

/-- Result of userSchema.methods.getAvailableReports. -/
structure Available where
  premium : Nat
  bluechip : Nat
  total : Nat
deriving DecidableEq, Repr

/-- userSchema.methods.getAvailableReports.  When the subscription is not
active the source returns an object with only premium and bluechip set to 0
(no total field); no caller reads total in that case, so the model returns 0
there as well. -/
def getAvailableReports (u : User) (now : DT) : Available :=
  if hasActiveSubscription u now then
    match u.currentSubscription with
    | none => ⟨0, 0, 0⟩
    | some s =>
        ⟨s.premiumReports - s.premiumReportsUsed,
         s.bluechipReports - s.bluechipReportsUsed,
         s.reportsIncluded - s.reportsUsed⟩
  else ⟨0, 0, 0⟩

/-- The bluechip consumption of useReport: one more bluechip report used and
one more aggregate report used. -/
def subUseBluechip (s : Subscription) : Subscription :=
  { s with bluechipReportsUsed := s.bluechipReportsUsed + 1,
           reportsUsed := s.reportsUsed + 1 }

/-- The premium consumption of useReport: one more premium report used and
one more aggregate report used. -/
def subUsePremium (s : Subscription) : Subscription :=
  { s with premiumReportsUsed := s.premiumReportsUsed + 1,
           reportsUsed := s.reportsUsed + 1 }

/-- Replace the current subscription of a user. -/
def withSub (u : User) (s : Subscription) : User :=
  { u with currentSubscription := some s }

/-- userSchema.methods.useReport: consume one report from the quota bucket
selected by reportType.  The source mutates the document and returns a Bool;
the model returns the Bool together with the updated user. -/
def useReport (u : User) (now : DT) (reportType : String) : Bool × User :=
  if hasActiveSubscription u now then
    match u.currentSubscription with
    | none => (false, u)
    | some s =>
        let avail := getAvailableReports u now
        if reportType == "bluechip" && avail.bluechip > 0 then
          (true, withSub u (subUseBluechip s))
        else if reportType == "premium" && avail.premium > 0 then
          (true, withSub u (subUsePremium s))
        else (false, u)
  else (false, u)

/-- Append one entry to user.purchasedReports (JS Array.push). -/
def pushPurchase (u : User) (e : PurchasedReport) : User :=
  { u with purchasedReports := u.purchasedReports ++ [e] }

/-- Result of the checkReportAccess helper in src/routes/reportRoutes.js. -/
inductive AccessCheck where
  | grantedIndividual
  | grantedSubscription (reportType : String)
  | denied (reason : String)
deriving DecidableEq, Repr

/-- The checkReportAccess helper of src/routes/reportRoutes.js (lines 46-72).
Purchase entries of any accessType count as already purchased; subscription
grants consult only the bucket matching the report type. -/
def checkReportAccess (u : Option User) (reportId rt : String) (now : DT) :
    AccessCheck :=
  match u with
  | none => .denied "User not found"
  | some user =>
    if user.purchasedReports.any (fun pr => pr.reportId == reportId) then
      .grantedIndividual
    else if hasActiveSubscription user now then
      let avail := getAvailableReports user now
      if rt == "bluechip" && avail.bluechip > 0 then
        .grantedSubscription "bluechip"
      else if rt == "premium" && avail.premium > 0 then
        .grantedSubscription "premium"
      else .denied "No reports left in subscription"
    else .denied "Subscription expired or not active"

/-- The fields of a report document the access logic reads. -/
structure ReportDoc where
  id : String
  reportType : String
deriving DecidableEq, Repr

/-- The source pattern `report.reportType || premium`: a missing or empty
report type falls back to premium. -/
def orPremium (rt : String) : String := if rt = "" then "premium" else rt

/-- Outcome of POST /:id/use-subscription (src/routes/reportRoutes.js,
lines 161-244), excluding the user/report lookup failures, which the
model assumes resolved. -/
inductive UseSubRes where
  | noSubscription
  | alreadyAccessed
  | noReportsLeft
  | ok
deriving DecidableEq, Repr

/-- The use-subscription handler: requires an active subscription, rejects a
repeat subscription access (the duplicate guard matches only entries with
accessType subscription), then consumes the bucket selected by the report
type and appends a price-0 subscription entry.  The e-mail at the end is
fire-and-forget and does not touch the modelled state. -/
def useSubscriptionRoute (u : User) (rep : ReportDoc) (now : DT) :
    UseSubRes × User :=
  if hasActiveSubscription u now then
    if u.purchasedReports.any
        (fun pr => pr.reportId == rep.id &&
                   pr.accessType == AccessType.subscription) then
      (.alreadyAccessed, u)
    else
      let r := useReport u now (orPremium rep.reportType)
      if r.1 then
        (.ok, pushPurchase r.2 ⟨rep.id, now, 0, AccessType.subscription⟩)
      else (.noReportsLeft, u)
  else (.noSubscription, u)

/-- Outcome of the access-controlled part of GET /:id/pdf
(src/routes/reportRoutes.js, lines 307-419).  The free-report early return
and the authentication steps happen upstream of the modelled fragment. -/
inductive PdfRes where
  | accessDenied (reason : String)
  | noReportsLeft
  | served
deriving DecidableEq, Repr

/-- The pdf route access-and-consume logic: checkReportAccess first; on a
subscription grant, consume the quota and record the access unless a
subscription-type entry already exists. -/
def pdfRoute (u : User) (rep : ReportDoc) (now : DT) : PdfRes × User :=
  match checkReportAccess (some u) rep.id (orPremium rep.reportType) now with
  | .denied reason => (.accessDenied reason, u)
  | .grantedIndividual => (.served, u)
  | .grantedSubscription rt =>
    if u.purchasedReports.any
        (fun pr => pr.reportId == rep.id &&
                   pr.accessType == AccessType.subscription) then
      (.served, u)
    else
      let r := useReport u now rt
      if r.1 then
        (.served, pushPurchase r.2 ⟨rep.id, now, 0, AccessType.subscription⟩)
      else (.noReportsLeft, u)

/-- Response body of GET /check-access/:reportId (src/routes/userRoutes.js,
lines 226-263). -/
structure AccessInfo where
  hasAccess : Bool
  accessType : Option String
  reason : Option String
deriving DecidableEq, Repr

/-- The check-access handler: an individual purchase check first, then, under
an active subscription, a grant decided by the aggregate total of
getAvailableReports (the handler never looks at the per-type buckets and
receives no report type). -/
def checkAccessRoute (u : User) (reportId : String) (now : DT) : AccessInfo :=
  let hasPurchased := u.purchasedReports.any (fun pr => pr.reportId == reportId)
  if hasPurchased then
    ⟨true, some "individual", some "Purchased individually"⟩
  else if hasActiveSubscription u now then
    let avail := getAvailableReports u now
    if avail.total > 0 then
      ⟨true, some "subscription", some "Available via subscription"⟩
    else ⟨false, none, some "No reports left in subscription"⟩
  else ⟨false, none, some "No active subscription or individual purchase"⟩

/-- The subscriptionPlan subdocument of a payment request. -/
structure Plan where
  planId : String
  planName : String
  duration : Nat
  reportsIncluded : Nat
  premiumReports : Nat
  bluechipReports : Nat
deriving DecidableEq, Repr

/-- The payment-request document fields the review handlers touch.  status
and paymentType are kept as strings because the handlers compare them as
strings; the schema enums restrict persisted values to
pending/approved/rejected and report/subscription. -/
structure PaymentRequestDoc where
  paymentType : String
  report : Option String
  subscriptionPlan : Option Plan
  amount : Int
  status : String
  adminComment : String
  reviewedAt : Option DT
deriving DecidableEq, Repr

/-- Outcome of POST /payment-requests/:id/verify, after the request and its
user were found. -/
inductive VerifyRes where
  | missingStatus
  | internalError
  | ok
deriving DecidableEq, Repr

/-- The verify handler (src/routes/paymentRoutes.js, lines 159-234).  It has
no pending-status guard: the incoming status overwrites the stored one and
the review fields unconditionally, and the request is saved before the grant
step.  On approved, a report request appends a purchasedReports entry with no
duplicate check and adds 10 points; a subscription request archives any
current subscription, installs the plan snapshot with zeroed counters and an
expiry of now plus duration months (jsAddMonths), and adds duration * 20
points.  A subscription request without a plan subdocument would make the
grant step throw after the save; the handler catch returns a 500 with the
user untouched (internalError). -/
def verifyRoute (pr : PaymentRequestDoc) (u : User) (now : DT)
    (status adminComment : String) : VerifyRes × PaymentRequestDoc × User :=
  if status = "" then (.missingStatus, pr, u)
  else
    let pr1 := { pr with status := status, adminComment := adminComment,
                         reviewedAt := some now }
    if status = "approved" then
      if pr.paymentType = "report" then
        let e : PurchasedReport :=
          ⟨pr.report.getD "", now, pr.amount, AccessType.individual⟩
        (.ok, pr1, { u with purchasedReports := u.purchasedReports ++ [e],
                            points := u.points + 10 })
      else if pr.paymentType = "subscription" then
        match pr.subscriptionPlan with
        | none => (.internalError, pr1, u)
        | some plan =>
          let newSub : Subscription :=
            { planId := plan.planId
              planName := plan.planName
              price := pr.amount
              duration := plan.duration
              purchaseDate := now
              expiryDate := jsAddMonths now plan.duration
              isActive := true
              reportsIncluded := plan.reportsIncluded
              reportsUsed := 0
              premiumReports := plan.premiumReports
              bluechipReports := plan.bluechipReports
              premiumReportsUsed := 0
              bluechipReportsUsed := 0 }
          let hist := u.subscriptionHistory ++ u.currentSubscription.toList
          (.ok, pr1, { u with currentSubscription := some newSub,
                              subscriptionHistory := hist,
                              points := u.points + (plan.duration : Int) * 20 })
      else (.ok, pr1, u)
    else (.ok, pr1, u)

/-- Outcome of PATCH /payment-requests/:id/approve, after the request and its
user were found. -/
inductive ApproveRes where
  | alreadyProcessed
  | internalError
  | ok
deriving DecidableEq, Repr

/-- The admin approve handler (src/routes/adminRoutes.js, lines 145-225).  It
rejects a non-pending request, then saves the request as approved (the
approvedAt assignment is not a schema field and is dropped on save).  For a
subscription request it then calls user.activateSubscription, a method the
user schema does not define, so the call raises a TypeError that the catch
turns into a 500 after the request was already saved approved, with the user
untouched (internalError).  The grant branch for report purchases compares
paymentType against the string individual, which the schema enum
(report, subscription) never stores, so for a report request neither branch
runs and the user is returned unchanged. -/
def approveRoute (pr : PaymentRequestDoc) (u : User) (now : DT) :
    ApproveRes × PaymentRequestDoc × User :=
  if pr.status ≠ "pending" then (.alreadyProcessed, pr, u)
  else
    let pr1 := { pr with status := "approved" }
    if pr.paymentType = "subscription" then
      (.internalError, pr1, u)
    else if pr.paymentType = "individual" then
      let e : PurchasedReport :=
        ⟨pr.report.getD "", now, pr.amount, AccessType.individual⟩
      (.ok, pr1, { u with purchasedReports := u.purchasedReports ++ [e] })
    else (.ok, pr1, u)

/-- The selection predicate of the expiry sweep deactivation query:
currentSubscription.isActive true and expiryDate strictly before now. -/
def expiredSel (now : DT) (u : User) : Bool :=
  match u.currentSubscription with
  | none => false
  | some s => s.isActive && s.expiryDate.key < now.key

/-- One deactivation of the sweep: flip isActive off, archive the deactivated
record into subscriptionHistory, clear currentSubscription. -/
def deactivate (u : User) : User :=
  match u.currentSubscription with
  | none => { u with currentSubscription := none }
  | some s =>
      { u with currentSubscription := none,
               subscriptionHistory :=
                 u.subscriptionHistory ++ [{ s with isActive := false }] }

/-- The deactivation loop of the cron sweep over the users selected by the
expiry query.  saveOk says whether the save of a given user succeeds; a
failing save throws out of the for loop, so the users after it keep their
persisted state.  The Bool result records whether an error escaped the
loop. -/
def sweepGo (saveOk : User → Bool) : List User → List User × Bool
  | [] => ([], false)
  | u :: rest =>
    if saveOk u then
      let r := sweepGo saveOk rest
      (deactivate u :: r.1, r.2)
    else (u :: rest, true)

/-- The cron sweep body (startSubscriptionExpiryCheck in
src/routes/paymentRoutes.js, lines 259-333) applied to the users the
deactivation query selected.  The whole body runs inside one try/catch, so
an escaping per-user error is swallowed there and nothing propagates to the
scheduler: the second component, what the caller observes as a failure, is
always false.  Expiry e-mails are sent with a per-call catch and do not
touch the modelled state; the warning pass mutates nothing. -/
def runSweep (saveOk : User → Bool) (users : List User) : List User × Bool :=
  ((sweepGo saveOk users).1, false)

/-- Sum of the two per-bucket used counters of the current subscription;
0 without one.  Used to count quota decrements across an operation. -/
def usedOf (u : User) : Nat :=
  match u.currentSubscription with
  | none => 0
  | some s => s.premiumReportsUsed + s.bluechipReportsUsed

/-- The per-subscription counter invariant of the spec: the aggregate used
counter is the sum of the bucket counters and each bucket counter is at most
its quota. -/
def SubInv (s : Subscription) : Prop :=
  s.reportsUsed = s.premiumReportsUsed + s.bluechipReportsUsed ∧
  s.premiumReportsUsed ≤ s.premiumReports ∧
  s.bluechipReportsUsed ≤ s.bluechipReports

/-- The invariant lifted to a user: it holds of the current subscription when
there is one. -/
def UserInv (u : User) : Prop :=
  ∀ s, u.currentSubscription = some s → SubInv s

/-- A reference time used by the concrete test states below. -/
def now0 : DT := ⟨2024, 2, 1⟩

/-- An active subscription: bought 2024-01-01, expires 2024-06-01, quotas
premium 3 / bluechip 2, aggregate 5, nothing used yet. -/
def subFix : Subscription :=
  ⟨"p1", "Gold", 500, 1, ⟨2024, 1, 1⟩, ⟨2024, 6, 1⟩, true, 5, 0, 3, 2, 0, 0⟩

/-- A user with no subscription, no purchases and no points. -/
def uEmptyFix : User := ⟨none, [], [], 0⟩

/-- A user with the active subscription and no purchases. -/
def uFreshFix : User := ⟨some subFix, [], [], 0⟩

/-- A user holding an individual purchase of report r1 and the active
subscription. -/
def uIndFix : User :=
  ⟨some subFix, [], [⟨"r1", ⟨2024, 1, 2⟩, 500, AccessType.individual⟩], 0⟩

/-- A user whose subscription has expired (2024-01-15 is before now0) but
whose isActive flag was never swept. -/
def uExpiredFix : User :=
  ⟨some { subFix with expiryDate := ⟨2024, 1, 15⟩ }, [], [], 0⟩

/-- The active subscription with its premium bucket exhausted (3 of 3 used)
while the bluechip bucket and the aggregate still have balance. -/
def subQuotaFix : Subscription :=
  { subFix with premiumReportsUsed := 3, reportsUsed := 3 }

/-- A user with an active subscription whose premium bucket is exhausted
while the bluechip bucket and the aggregate still have balance. -/
def uQuotaFix : User := ⟨some subQuotaFix, [], [], 0⟩

/-- The active subscription whose quotas sum beyond the aggregate: premium 2
and bluechip 2 against reportsIncluded 3. -/
def subTotFix : Subscription :=
  { subFix with reportsIncluded := 3, premiumReports := 2,
                bluechipReports := 2 }

/-- A user whose subscription quotas sum beyond the aggregate. -/
def uTotFix : User := ⟨some subTotFix, [], [], 0⟩

/-- Premium report r1. -/
def rep1Fix : ReportDoc := ⟨"r1", "premium"⟩

/-- An already-approved individual-report payment request. -/
def prApprovedFix : PaymentRequestDoc :=
  ⟨"report", some "r1", none, 500, "approved", "", none⟩

/-- A pending individual-report payment request. -/
def prPendingReportFix : PaymentRequestDoc :=
  ⟨"report", some "r1", none, 500, "pending", "", none⟩

/-- The subscription plan of the spec scenario: 1 month, 5 reports,
3 premium, 2 bluechip. -/
def planFix : Plan := ⟨"p1", "Gold", 1, 5, 3, 2⟩

/-- A pending subscription payment request carrying planFix. -/
def prSubPendingFix : PaymentRequestDoc :=
  ⟨"subscription", none, some planFix, 999, "pending", "", none⟩

/-- Two users with expired but still active subscriptions, distinguished by
their points balance so a save oracle can tell them apart. -/
def uExpAFix : User :=
  ⟨some { subFix with expiryDate := ⟨2024, 1, 10⟩ }, [], [], 1⟩

/-- Second expired-subscription user for the sweep counterexample. -/
def uExpBFix : User :=
  ⟨some { subFix with expiryDate := ⟨2024, 1, 12⟩ }, [], [], 2⟩

/-- A save oracle under which exactly the save of uExpAFix fails. -/
def saveFailAFix : User → Bool := fun u => u.points ≠ 1

/-- Case analysis of useReport: either it fails and returns the user
unchanged, or the subscription is active and it increments exactly the
bucket named by the report type, which had remaining balance. -/
theorem useReport_cases (u : User) (now : DT) (rt : String) :
    useReport u now rt = (false, u) ∨
    ∃ s, u.currentSubscription = some s ∧
      hasActiveSubscription u now = true ∧
      ((rt = "bluechip" ∧ s.bluechipReportsUsed < s.bluechipReports ∧
        useReport u now rt = (true, withSub u (subUseBluechip s))) ∨
       (rt = "premium" ∧ s.premiumReportsUsed < s.premiumReports ∧
        useReport u now rt = (true, withSub u (subUsePremium s)))) := by
  by_cases h1 : hasActiveSubscription u now
  · cases h2 : u.currentSubscription with
    | none =>
      left
      simp [useReport, h1, h2]
    | some s =>
      have hav : getAvailableReports u now =
          ⟨s.premiumReports - s.premiumReportsUsed,
           s.bluechipReports - s.bluechipReportsUsed,
           s.reportsIncluded - s.reportsUsed⟩ := by
        simp [getAvailableReports, h1, h2]
      by_cases hbt : rt = "bluechip"
      · by_cases hbq : s.bluechipReportsUsed < s.bluechipReports
        · right
          refine ⟨s, rfl, h1, Or.inl ⟨hbt, hbq, ?_⟩⟩
          simp [useReport, h1, h2, hav, hbt, Nat.sub_pos_of_lt hbq]
        · left
          have hz : s.bluechipReports - s.bluechipReportsUsed = 0 := by omega
          simp [useReport, h1, h2, hav, hbt, hz]
      · by_cases hpt : rt = "premium"
        · by_cases hpq : s.premiumReportsUsed < s.premiumReports
          · right
            refine ⟨s, rfl, h1, Or.inr ⟨hpt, hpq, ?_⟩⟩
            simp [useReport, h1, h2, hav, hpt, hbt, Nat.sub_pos_of_lt hpq]
          · left
            have hz : s.premiumReports - s.premiumReportsUsed = 0 := by omega
            simp [useReport, h1, h2, hav, hpt, hbt, hz]
        · left
          simp [useReport, h1, h2, hav, hbt, hpt]
  · left
    simp [useReport, h1]

/-- useReport never touches the purchasedReports list. -/
theorem useReport_purchasedReports (u : User) (now : DT) (rt : String) :
    (useReport u now rt).2.purchasedReports = u.purchasedReports := by
  rcases useReport_cases u now rt with h | ⟨s, _, _, ⟨_, _, h⟩ | ⟨_, _, h⟩⟩ <;>
    simp [h, withSub]

/-- useReport preserves the activity of the subscription: it changes only
the used counters, never the isActive flag or the expiry date. -/
theorem useReport_hasActive (u : User) (now : DT) (rt : String) :
    hasActiveSubscription (useReport u now rt).2 now =
      hasActiveSubscription u now := by
  rcases useReport_cases u now rt with h | ⟨s, hs, _, ⟨_, _, h⟩ | ⟨_, _, h⟩⟩
  · simp [h]
  · simp [h, withSub, hasActiveSubscription, hs, subUseBluechip]
  · simp [h, withSub, hasActiveSubscription, hs, subUsePremium]

/-- A successful useReport increments the summed bucket counters by one. -/
theorem useReport_usedOf (u : User) (now : DT) (rt : String)
    (h : (useReport u now rt).1 = true) :
    usedOf (useReport u now rt).2 = usedOf u + 1 := by
  rcases useReport_cases u now rt with he | ⟨s, hs, _, ⟨_, _, he⟩ | ⟨_, _, he⟩⟩
  · rw [he] at h; simp at h
  · rw [he]
    simp [usedOf, withSub, subUseBluechip, hs]
    omega
  · rw [he]
    simp [usedOf, withSub, subUsePremium, hs]
    omega

/-- A failed useReport leaves the user unchanged. -/
theorem useReport_fail (u : User) (now : DT) (rt : String)
    (h : (useReport u now rt).1 = false) :
    useReport u now rt = (false, u) := by
  rcases useReport_cases u now rt with he | ⟨s, _, _, ⟨_, _, he⟩ | ⟨_, _, he⟩⟩
  · exact he
  · rw [he] at h; simp at h
  · rw [he] at h; simp at h

/-- pushPurchase does not touch the subscription state. -/
theorem pushPurchase_hasActive (u : User) (e : PurchasedReport) (now : DT) :
    hasActiveSubscription (pushPurchase u e) now =
      hasActiveSubscription u now := rfl

/-- pushPurchase does not touch the used counters. -/
theorem pushPurchase_usedOf (u : User) (e : PurchasedReport) :
    usedOf (pushPurchase u e) = usedOf u := rfl

/-- C4: hasActiveSubscription is true exactly when a currentSubscription
exists with isActive set and an expiryDate strictly after now; it is a pure
read of the document.  A user whose expiryDate has passed while isActive is
still true is treated as inactive by the predicate and, when the report is
not owned, the access check denies with the inactive-subscription reason. -/
theorem c4_hasActiveSubscription (u : User) (now : DT) :
    (hasActiveSubscription u now = true ↔
      ∃ s, u.currentSubscription = some s ∧ s.isActive = true ∧
        now.key < s.expiryDate.key) ∧
    (∀ s, u.currentSubscription = some s → s.isActive = true →
      s.expiryDate.key ≤ now.key →
      hasActiveSubscription u now = false ∧
      ∀ rid rt,
        u.purchasedReports.any (fun pr => pr.reportId == rid) = false →
        checkReportAccess (some u) rid rt now =
          AccessCheck.denied "Subscription expired or not active") := by
  constructor
  · cases h : u.currentSubscription with
    | none => simp [hasActiveSubscription, h]
    | some s => simp [hasActiveSubscription, h]
  · intro s hs hact hle
    have hfalse : hasActiveSubscription u now = false := by
      simp [hasActiveSubscription, hs, hact]
      omega
    refine ⟨hfalse, fun rid rt hown => ?_⟩
    simp [checkReportAccess, hown, hfalse]

/-- Witness for C4 at the expired-but-not-swept user uExpiredFix. -/
theorem c4_witness :
    hasActiveSubscription uExpiredFix now0 = false ∧
    checkReportAccess (some uExpiredFix) "r9" "premium" now0 =
      AccessCheck.denied "Subscription expired or not active" := by
  have h := (c4_hasActiveSubscription uExpiredFix now0).2
    { subFix with expiryDate := ⟨2024, 1, 15⟩ } rfl rfl (by decide)
  exact ⟨h.1, h.2 "r9" "premium" (by decide)⟩

/-- C1 counterexample: the verify entry point has no pending guard.  On an
already-approved report request it reports success, re-appends the purchase
entry and adds the 10 points again, instead of failing with AlreadyProcessed
and leaving the user unchanged. -/
theorem c1_counterexample :
    prApprovedFix.status = "approved" ∧
    (verifyRoute prApprovedFix uEmptyFix now0 "approved" "").1 =
      VerifyRes.ok ∧
    (verifyRoute prApprovedFix uEmptyFix now0 "approved" "").2.2.points = 10 ∧
    uEmptyFix.points = 0 ∧
    (verifyRoute prApprovedFix uEmptyFix now0 "approved"
      "").2.2.purchasedReports.length = 1 ∧
    uEmptyFix.purchasedReports.length = 0 := by
  decide

/-- C1 amended: only the admin approve entry point is guarded.  For every
payment request whose status is not pending, the admin approve handler fails
with AlreadyProcessed and returns the request and the user unchanged; the
verify entry point performs no such check and re-applies the review. -/
theorem c1_amended (pr : PaymentRequestDoc) (u : User) (now : DT)
    (h : pr.status ≠ "pending") :
    approveRoute pr u now = (ApproveRes.alreadyProcessed, pr, u) := by
  simp [approveRoute, h]

/-- Witness for the amended C1 at the already-approved request. -/
theorem c1_amended_witness :
    approveRoute prApprovedFix uEmptyFix now0 =
      (ApproveRes.alreadyProcessed, prApprovedFix, uEmptyFix) :=
  c1_amended prApprovedFix uEmptyFix now0 (by decide)

/-- C2 code bug: approving a pending report-purchase request through the
admin approve route marks it approved yet grants nothing: the grant branch
compares paymentType against the string individual, a value the schema enum
(report, subscription) never stores, so the user keeps an empty
purchasedReports list while the request ends in state approved. -/
theorem c2_code_bug :
    prPendingReportFix.paymentType = "report" ∧
    prPendingReportFix.status = "pending" ∧
    approveRoute prPendingReportFix uEmptyFix now0 =
      (ApproveRes.ok, { prPendingReportFix with status := "approved" },
       uEmptyFix) ∧
    uEmptyFix.purchasedReports = [] := by
  decide

/-- C9 counterexample: both users hold expired, still-active subscriptions;
the save of the first fails.  The sweep run leaves the second user
completely unprocessed (that subscription still active and expired), because
a per-user save error escapes the for loop into the single surrounding
catch. -/
theorem c9_counterexample :
    expiredSel now0 uExpAFix = true ∧
    expiredSel now0 uExpBFix = true ∧
    saveFailAFix uExpAFix = false ∧
    runSweep saveFailAFix [uExpAFix, uExpBFix] =
      ([uExpAFix, uExpBFix], false) ∧
    deactivate uExpBFix ≠ uExpBFix := by
  decide

/-- The deactivation loop processes the longest prefix of users whose saves
succeed and leaves everyone from the first failing save on untouched. -/
theorem sweepGo_fst (saveOk : User → Bool) (users : List User) :
    (sweepGo saveOk users).1 =
      (users.takeWhile saveOk).map deactivate ++ users.dropWhile saveOk := by
  induction users with
  | nil => simp [sweepGo]
  | cons u rest ih =>
    by_cases h : saveOk u
    · simp [sweepGo, h, List.takeWhile_cons, List.dropWhile_cons, ih]
    · simp [sweepGo, h, List.takeWhile_cons, List.dropWhile_cons]

/-- C9 amended: a sweep run deactivates the users up to the first failing
save and leaves the rest of that run unprocessed (a per-user save error is
caught only by the catch around the whole run); the sweep never propagates
a failure to its caller. -/
theorem c9_amended (saveOk : User → Bool) (users : List User) :
    runSweep saveOk users =
      ((users.takeWhile saveOk).map deactivate ++ users.dropWhile saveOk,
       false) := by
  simp [runSweep, sweepGo_fst]

/-- C3 counterexample: uIndFix already holds a purchasedReports entry for r1
with accessType individual, yet the use-subscription handler consumes a
premium quota unit and appends a second entry for the same report: its guard
matches only accessType subscription, not any accessType. -/
theorem c3_counterexample :
    uIndFix.purchasedReports.length = 1 ∧
    (uIndFix.purchasedReports.any fun pr => pr.reportId == rep1Fix.id) =
      true ∧
    (useSubscriptionRoute uIndFix rep1Fix now0).1 = UseSubRes.ok ∧
    ((useSubscriptionRoute uIndFix rep1Fix now0).2.currentSubscription.map
      fun s => s.premiumReportsUsed) = some 1 ∧
    (useSubscriptionRoute uIndFix rep1Fix now0).2.purchasedReports.length =
      2 := by
  decide

/-- C3 amended: the double-charge guard of the use-subscription handler
checks only purchasedReports entries with accessType subscription, and a
repeat access is rejected with an already-accessed error rather than
treated as a granted no-op.  For a report the user holds no entry for at
all, running the operation twice still yields exactly one quota decrement
and exactly one purchasedReports entry: the second run fails without
mutating anything. -/
theorem c3_amended (u : User) (rep : ReportDoc) (now : DT)
    (hown : u.purchasedReports.countP (fun pr => pr.reportId == rep.id) = 0)
    (hok : (useSubscriptionRoute u rep now).1 = UseSubRes.ok) :
    useSubscriptionRoute (useSubscriptionRoute u rep now).2 rep now =
      (UseSubRes.alreadyAccessed, (useSubscriptionRoute u rep now).2) ∧
    (useSubscriptionRoute u rep now).2.purchasedReports.countP
      (fun pr => pr.reportId == rep.id) = 1 ∧
    usedOf (useSubscriptionRoute u rep now).2 = usedOf u + 1 := by
  by_cases h1 : hasActiveSubscription u now = true
  · by_cases h2 : (u.purchasedReports.any fun pr =>
        pr.reportId == rep.id && pr.accessType == AccessType.subscription) =
        true
    · simp [useSubscriptionRoute, h1, h2] at hok
    · by_cases h3 : (useReport u now (orPremium rep.reportType)).1 = true
      · have heq : useSubscriptionRoute u rep now =
            (UseSubRes.ok,
             pushPurchase (useReport u now (orPremium rep.reportType)).2
               ⟨rep.id, now, 0, AccessType.subscription⟩) := by
          simp [useSubscriptionRoute, h1, h2, h3]
        rw [heq]
        have ha : hasActiveSubscription
            (pushPurchase (useReport u now (orPremium rep.reportType)).2
              ⟨rep.id, now, 0, AccessType.subscription⟩) now = true := by
          rw [pushPurchase_hasActive, useReport_hasActive]; exact h1
        have hany : ((pushPurchase
            (useReport u now (orPremium rep.reportType)).2
            ⟨rep.id, now, 0, AccessType.subscription⟩).purchasedReports.any
              fun pr => pr.reportId == rep.id &&
                pr.accessType == AccessType.subscription) = true := by
          simp [pushPurchase]
        refine ⟨?_, ?_, ?_⟩
        · simp [useSubscriptionRoute, ha, hany]
        · simp [pushPurchase, useReport_purchasedReports,
                List.countP_append, hown, List.countP_cons]
        · rw [pushPurchase_usedOf, useReport_usedOf u now _ h3]
      · simp [useSubscriptionRoute, h1, h2, h3] at hok
  · simp [useSubscriptionRoute, h1] at hok

/-- Witness for the amended C3: the fresh subscriber uFreshFix accessing r1
twice through the use-subscription route. -/
theorem c3_amended_witness :
    useSubscriptionRoute (useSubscriptionRoute uFreshFix rep1Fix now0).2
        rep1Fix now0 =
      (UseSubRes.alreadyAccessed,
       (useSubscriptionRoute uFreshFix rep1Fix now0).2) ∧
    (useSubscriptionRoute uFreshFix rep1Fix now0).2.purchasedReports.countP
      (fun pr => pr.reportId == rep1Fix.id) = 1 ∧
    usedOf (useSubscriptionRoute uFreshFix rep1Fix now0).2 =
      usedOf uFreshFix + 1 :=
  c3_amended uFreshFix rep1Fix now0 (by decide) (by decide)

/-- C5: from any user state satisfying the counter invariant, useReport
preserves it, and an approval-time subscription activation through the
verify route re-establishes it, installs exactly one current subscription
and first archives a pre-existing one at the end of subscriptionHistory. -/
theorem c5_invariants (u : User) (now : DT) (hinv : UserInv u) :
    (∀ rt, UserInv (useReport u now rt).2) ∧
    (∀ pr plan comment, pr.paymentType = "subscription" →
      pr.subscriptionPlan = some plan →
      UserInv (verifyRoute pr u now "approved" comment).2.2 ∧
      (verifyRoute pr u now "approved"
        comment).2.2.currentSubscription.isSome = true ∧
      (verifyRoute pr u now "approved" comment).2.2.subscriptionHistory =
        u.subscriptionHistory ++ u.currentSubscription.toList) := by
  constructor
  · intro rt
    rcases useReport_cases u now rt with
      he | ⟨s, hs, _, ⟨_, hlt, he⟩ | ⟨_, hlt, he⟩⟩
    · rw [he]; exact hinv
    · rw [he]
      intro s' hs'
      have hI := hinv s hs
      have heq : subUseBluechip s = s' := by simpa [withSub] using hs'
      rcases hI with ⟨hsum, hp, hb⟩
      rw [← heq]
      refine ⟨?_, ?_, ?_⟩ <;> simp [subUseBluechip, SubInv] <;> omega
    · rw [he]
      intro s' hs'
      have hI := hinv s hs
      have heq : subUsePremium s = s' := by simpa [withSub] using hs'
      rcases hI with ⟨hsum, hp, hb⟩
      rw [← heq]
      refine ⟨?_, ?_, ?_⟩ <;> simp [subUsePremium, SubInv] <;> omega
  · intro pr plan comment hpt hplan
    refine ⟨?_, ?_, ?_⟩
    · intro s' hs'
      simp [verifyRoute, hpt, hplan] at hs'
      rw [← hs']
      simp [SubInv]
    · simp [verifyRoute, hpt, hplan]
    · simp [verifyRoute, hpt, hplan]

/-- Witness for C5: the fresh subscriber and the pending subscription
request. -/
theorem c5_witness :
    UserInv (useReport uFreshFix now0 "premium").2 ∧
    UserInv (verifyRoute prSubPendingFix uFreshFix now0 "approved"
      "").2.2 ∧
    (verifyRoute prSubPendingFix uFreshFix now0 "approved"
      "").2.2.currentSubscription.isSome = true ∧
    (verifyRoute prSubPendingFix uFreshFix now0 "approved"
      "").2.2.subscriptionHistory =
      uFreshFix.subscriptionHistory ++
        uFreshFix.currentSubscription.toList := by
  have hinv : UserInv uFreshFix := by
    intro s hs
    simp [uFreshFix] at hs
    rw [← hs]
    exact ⟨rfl, by decide, by decide⟩
  have h := c5_invariants uFreshFix now0 hinv
  have h2 := h.2 prSubPendingFix planFix "" (by decide) (by decide)
  exact ⟨h.1 "premium", h2.1, h2.2.1, h2.2.2⟩

/-- C6 counterexample: a user with no subscription at all and a user with an
expired but unswept subscription receive the identical denial reason from
checkReportAccess; the source does not distinguish no-subscription from
subscription-expired. -/
theorem c6_counterexample :
    uEmptyFix.currentSubscription = none ∧
    (uExpiredFix.currentSubscription.map fun s => s.isActive) = some true ∧
    (uExpiredFix.currentSubscription.map fun s =>
      decide (s.expiryDate.key < now0.key)) = some true ∧
    checkReportAccess (some uEmptyFix) "r9" "premium" now0 =
      AccessCheck.denied "Subscription expired or not active" ∧
    checkReportAccess (some uExpiredFix) "r9" "premium" now0 =
      AccessCheck.denied "Subscription expired or not active" := by
  decide

/-- C6 amended: for an unowned paid report the access check distinguishes
only two denial reasons: one shared reason for both no-subscription and
expired-subscription, and a quota-exhausted reason exactly when the
subscription is active but the bucket matching the report type is empty. -/
theorem c6_amended (u : User) (rid rt : String) (now : DT)
    (hown : u.purchasedReports.any (fun pr => pr.reportId == rid) = false) :
    (hasActiveSubscription u now = false →
      checkReportAccess (some u) rid rt now =
        AccessCheck.denied "Subscription expired or not active") ∧
    (hasActiveSubscription u now = true →
      (rt = "premium" ∧ (getAvailableReports u now).premium = 0 ∨
       rt = "bluechip" ∧ (getAvailableReports u now).bluechip = 0) →
      checkReportAccess (some u) rid rt now =
        AccessCheck.denied "No reports left in subscription") := by
  constructor
  · intro h
    simp [checkReportAccess, hown, h]
  · intro hact hcase
    rcases hcase with ⟨hrt, hz⟩ | ⟨hrt, hz⟩ <;>
      simp [checkReportAccess, hown, hact, hrt, hz]

/-- Witness for the amended C6 at the premium-exhausted user uQuotaFix. -/
theorem c6_witness :
    checkReportAccess (some uQuotaFix) "r9" "premium" now0 =
      AccessCheck.denied "No reports left in subscription" :=
  (c6_amended uQuotaFix "r9" "premium" now0 (by decide)).2 (by decide)
    (Or.inl ⟨rfl, by decide⟩)

/-- C7 counterexample: uQuotaFix has its premium bucket fully used (3 of 3)
under an active subscription and owns nothing, yet the check-access route
reports access via subscription, because that handler consults only the
aggregate total (5 included, 3 used), never the per-type bucket. -/
theorem c7_counterexample :
    uQuotaFix.purchasedReports = [] ∧
    (uQuotaFix.currentSubscription.map fun s =>
      (s.premiumReports, s.premiumReportsUsed, s.reportsIncluded,
       s.reportsUsed)) = some (3, 3, 5, 3) ∧
    hasActiveSubscription uQuotaFix now0 = true ∧
    checkAccessRoute uQuotaFix "r1" now0 =
      ⟨true, some "subscription", some "Available via subscription"⟩ := by
  decide

/-- C7 amended: checkReportAccess (the pdf and download path) denies a
premium report with the quota-exhausted reason whenever the premium bucket
is exhausted, whatever the bluechip balance, consulting only the matching
bucket; the check-access endpoint instead decides by the aggregate total of
the subscription. -/
theorem c7_amended (u : User) (s : Subscription) (rid : String) (now : DT)
    (hs : u.currentSubscription = some s)
    (hown : u.purchasedReports.any (fun pr => pr.reportId == rid) = false)
    (hact : hasActiveSubscription u now = true)
    (hexh : s.premiumReports ≤ s.premiumReportsUsed) :
    checkReportAccess (some u) rid "premium" now =
      AccessCheck.denied "No reports left in subscription" ∧
    (checkAccessRoute u rid now).hasAccess =
      decide (0 < s.reportsIncluded - s.reportsUsed) := by
  have hav : getAvailableReports u now =
      ⟨s.premiumReports - s.premiumReportsUsed,
       s.bluechipReports - s.bluechipReportsUsed,
       s.reportsIncluded - s.reportsUsed⟩ := by
    simp [getAvailableReports, hact, hs]
  have hz : s.premiumReports - s.premiumReportsUsed = 0 := by omega
  constructor
  · simp [checkReportAccess, hown, hact, hav, hz]
  · by_cases ht : 0 < s.reportsIncluded - s.reportsUsed <;>
      simp [checkAccessRoute, hown, hact, hav, ht]

/-- Witness for the amended C7 at uQuotaFix, whose aggregate still has
balance. -/
theorem c7_amended_witness :
    checkReportAccess (some uQuotaFix) "r1" "premium" now0 =
      AccessCheck.denied "No reports left in subscription" ∧
    (checkAccessRoute uQuotaFix "r1" now0).hasAccess =
      decide (0 < subQuotaFix.reportsIncluded - subQuotaFix.reportsUsed) :=
  c7_amended uQuotaFix subQuotaFix "r1" now0 rfl (by decide) (by decide)
    (by decide)

/-- C8 counterexample: a 1-month subscription approved on 2024-01-31 gets
expiryDate 2024-03-02 from the verify route (JS setMonth day rollover),
not the calendar-clamped 2024-02-29 the claim requires. -/
theorem c8_counterexample :
    planFix.duration = 1 ∧
    ((verifyRoute prSubPendingFix uEmptyFix ⟨2024, 1, 31⟩ "approved"
      "").2.2.currentSubscription.map fun s => s.expiryDate) =
      some ⟨2024, 3, 2⟩ ∧
    specClampAddMonths ⟨2024, 1, 31⟩ 1 = ⟨2024, 2, 29⟩ ∧
    (⟨2024, 3, 2⟩ : DT) ≠ ⟨2024, 2, 29⟩ := by
  decide

/-- C8 amended: the approval expiry is now plus durationMonths months with
JS setMonth semantics: the same calendar day whenever that day exists in
the target month (where it agrees with the clamping rule), and otherwise a
rollover into the following month by the excess days; the 2024-01-15 plus
1 month scenario yields 2024-02-15. -/
theorem c8_amended (t : DT) (n : Nat)
    (h2 : t.d ≤ daysInMonth (yAfter t n) (mAfter t n)) :
    jsAddMonths t n = specClampAddMonths t n ∧
    jsAddMonths t n = ⟨yAfter t n, mAfter t n, t.d⟩ ∧
    (∀ pr u plan comment, pr.paymentType = "subscription" →
      pr.subscriptionPlan = some plan →
      ((verifyRoute pr u t "approved" comment).2.2.currentSubscription.map
        fun s => s.expiryDate) = some (jsAddMonths t plan.duration)) ∧
    jsAddMonths ⟨2024, 1, 15⟩ 1 = ⟨2024, 2, 15⟩ := by
  refine ⟨?_, ?_, ?_, by decide⟩
  · simp [jsAddMonths, specClampAddMonths, h2, Nat.min_eq_left h2]
  · simp [jsAddMonths, h2]
  · intro pr u plan comment hpt hplan
    simp [verifyRoute, hpt, hplan]

/-- Witness for the amended C8 at the scenario date 2024-01-15 with a
1-month duration. -/
theorem c8_amended_witness :
    jsAddMonths ⟨2024, 1, 15⟩ 1 = specClampAddMonths ⟨2024, 1, 15⟩ 1 ∧
    jsAddMonths ⟨2024, 1, 15⟩ 1 =
      ⟨yAfter ⟨2024, 1, 15⟩ 1, mAfter ⟨2024, 1, 15⟩ 1, 15⟩ ∧
    ((verifyRoute prSubPendingFix uEmptyFix ⟨2024, 1, 15⟩ "approved"
      "").2.2.currentSubscription.map fun s => s.expiryDate) =
      some (jsAddMonths ⟨2024, 1, 15⟩ planFix.duration) := by
  have h := c8_amended ⟨2024, 1, 15⟩ 1 (by decide)
  exact ⟨h.1, h.2.1,
    h.2.2.1 prSubPendingFix uEmptyFix planFix "" (by decide) (by decide)⟩

/-- C10: under an active subscription, useReport succeeds exactly when the
bucket matching the report type has remaining balance (the aggregate pair
is never consulted as a limit), a report type outside premium and bluechip
returns false and mutates nothing, and the concrete user uTotFix with
quotas 2 plus 2 against an aggregate of 3 successfully consumes 4 reports,
ending with reportsUsed 4 above reportsIncluded 3. -/
theorem c10_bucket_only (u : User) (now : DT) (s : Subscription)
    (hs : u.currentSubscription = some s)
    (hact : hasActiveSubscription u now = true) :
    ((useReport u now "premium").1 = true ↔
      s.premiumReportsUsed < s.premiumReports) ∧
    ((useReport u now "bluechip").1 = true ↔
      s.bluechipReportsUsed < s.bluechipReports) ∧
    (∀ v t, useReport v t "free" = (false, v)) ∧
    (let r1 := useReport uTotFix now0 "premium"
     let r2 := useReport r1.2 now0 "premium"
     let r3 := useReport r2.2 now0 "bluechip"
     let r4 := useReport r3.2 now0 "bluechip"
     r1.1 = true ∧ r2.1 = true ∧ r3.1 = true ∧ r4.1 = true ∧
     (r4.2.currentSubscription.map fun s =>
       (s.reportsUsed, s.reportsIncluded)) = some (4, 3)) := by
  have hav : getAvailableReports u now =
      ⟨s.premiumReports - s.premiumReportsUsed,
       s.bluechipReports - s.bluechipReportsUsed,
       s.reportsIncluded - s.reportsUsed⟩ := by
    simp [getAvailableReports, hact, hs]
  refine ⟨?_, ?_, ?_, by decide⟩
  · by_cases hq : s.premiumReportsUsed < s.premiumReports
    · simp [useReport, hact, hs, hav, Nat.sub_pos_of_lt hq, hq]
    · have hz : s.premiumReports - s.premiumReportsUsed = 0 := by omega
      simp [useReport, hact, hs, hav, hz, hq]
  · by_cases hq : s.bluechipReportsUsed < s.bluechipReports
    · simp [useReport, hact, hs, hav, Nat.sub_pos_of_lt hq, hq]
    · have hz : s.bluechipReports - s.bluechipReportsUsed = 0 := by omega
      simp [useReport, hact, hs, hav, hz, hq]
  · intro v t
    rcases useReport_cases v t "free" with
      he | ⟨s', _, _, ⟨hbt, _, _⟩ | ⟨hpt, _, _⟩⟩
    · exact he
    · exact absurd hbt (by decide)
    · exact absurd hpt (by decide)

/-- Witness for C10 at the over-aggregate user uTotFix. -/
theorem c10_witness :
    ((useReport uTotFix now0 "premium").1 = true ↔
      subTotFix.premiumReportsUsed < subTotFix.premiumReports) ∧
    useReport uEmptyFix now0 "free" = (false, uEmptyFix) :=
  have h := c10_bucket_only uTotFix now0 subTotFix rfl (by decide)
  ⟨h.1, h.2.2.1 uEmptyFix now0⟩

end TRP
